import Mathlib

/-!
# Verification of the clif configuration engine

A shallow embedding, in Lean 4, of the configuration-discovery and
multi-source-merge engine of the `clif` CLI toolkit (package `clif`,
`configuration.go`, `console.go`, `logger.go` and helpers), together with
theorems settling the specification claims about it.

Conventions of the embedding:
* Go's dynamically typed decoded values (`interface{}`) are the inductive
  `DynValue`; a `float64` value is represented by the integer Go's `int(f)`
  conversion would produce, since only that truncation is observable through
  the code under study (`toInt`).
* Go maps that the code only ranges over are association lists; where the
  code relies on a map's key uniqueness a `Nodup` hypothesis is carried.
* Fallible Go functions returning `(T, error)` become `Except`-valued
  functions; functions mutating a receiver take and return the state.
* The reflective struct walker operates on an explicit tree (`Node` /
  `Fields`) of scalar leaves, by-value structs and pointers-to-structs,
  with each field carrying its `IsExported` flag and whether it is
  convertible to `*Configuration` (the core-anchor whitelist of the walker).
-/

namespace Clif

/-- Dynamically typed decoded value (Go `interface{}` as produced by the
YAML/JSON decoders), restricted to the shapes the section decoders inspect.
`vFloat t` stands for a `float64` value whose Go `int(f)` truncation is `t`;
`vOther` stands for any value of a type other than `string`, `bool`, `int`
and `float64` (maps, slices, nil, ...). -/
inductive DynValue where
  | vString (s : String)
  | vBool (b : Bool)
  | vInt (i : Int)
  | vFloat (trunc : Int)
  | vOther
deriving DecidableEq, Repr

/-- `true` exactly when the dynamic value's runtime type is Go `int`
(the type assertion `value.(int)` succeeds). -/
def DynValue.isGoInt : DynValue → Bool
  | .vInt _ => true
  | _ => false

/-- `true` exactly when the dynamic value's runtime type is Go `string`. -/
def DynValue.isGoString : DynValue → Bool
  | .vString _ => true
  | _ => false

/-- `true` exactly when the dynamic value's runtime type is Go `bool`. -/
def DynValue.isGoBool : DynValue → Bool
  | .vBool _ => true
  | _ => false

/-- Error produced by the type-coercion helpers `toInt`, `toBool`,
`toString`: `fmt.Errorf("invalid data type - %s != %s", key, "int")`.
(All three helpers print `"int"` as the expected type; `key` is the
offending key.) -/
structure CoercionError where
  key : String
deriving DecidableEq, Repr

/-- The message of a `CoercionError`, as formatted by the source. -/
def coercionErrorMessage (e : CoercionError) : String :=
  "invalid data type - " ++ e.key ++ " != int"

/-- `toInt` from the coercion helpers: accepts an `int` as is, accepts a
`float64` by `int(f)` conversion, and fails on anything else. -/
def toInt (key : String) (value : DynValue) : Except CoercionError Int :=
  match value with
  | .vInt i => .ok i
  | .vFloat t => .ok t
  | _ => .error ⟨key⟩

/-- `toBool` from the coercion helpers: accepts a `bool`, fails otherwise. -/
def toBool (key : String) (value : DynValue) : Except CoercionError Bool :=
  match value with
  | .vBool b => .ok b
  | _ => .error ⟨key⟩

/-- `toString` from the coercion helpers: accepts a `string`, fails
otherwise. -/
def toString (key : String) (value : DynValue) : Except CoercionError String :=
  match value with
  | .vString s => .ok s
  | _ => .error ⟨key⟩

/-- The typed fields of `consoleConfigurationData` (`console.go`). -/
structure ConsoleConfigurationData where
  width : Int
  height : Int
deriving DecidableEq, Repr

/-- The typed fields of `loggerConfigurationData` (`logger.go`). -/
structure LoggerConfigurationData where
  level : String
  colorized : Bool
deriving DecidableEq, Repr

/-- A section decoder error: `fmt.Errorf("%w: %s", ErrConsoleUnmarshalType,
err)` or `fmt.Errorf("%w: %s", ErrLoggerUnmarshalType, err)`; the
constructor records which sentinel error is wrapped and the underlying
coercion error (which carries the offending key). -/
inductive SectionError where
  | consoleUnmarshalType (e : CoercionError)
  | loggerUnmarshalType (e : CoercionError)
deriving DecidableEq, Repr

/-- The loop body of `newConsoleConfiguration`: ranges over the section's
key/value pairs, decoding `"width"` and `"height"` via `toInt` and ignoring
every other key; the first coercion failure aborts with the wrapped error. -/
def consoleConfigLoop (c : ConsoleConfigurationData) :
    List (String × DynValue) → Except SectionError ConsoleConfigurationData
  | [] => .ok c
  | (key, value) :: rest =>
    if key = "width" then
      match toInt key value with
      | .error e => .error (.consoleUnmarshalType e)
      | .ok w => consoleConfigLoop { c with width := w } rest
    else if key = "height" then
      match toInt key value with
      | .error e => .error (.consoleUnmarshalType e)
      | .ok h => consoleConfigLoop { c with height := h } rest
    else
      consoleConfigLoop c rest

/-- `newConsoleConfiguration` (`console.go`): starts from the zero
`consoleConfigurationData` and decodes the section's pairs. -/
def newConsoleConfiguration (values : List (String × DynValue)) :
    Except SectionError ConsoleConfigurationData :=
  consoleConfigLoop ⟨0, 0⟩ values

/-- The loop body of `newLoggerConfiguration`: decodes `"level"` via
`toString` and `"colorized"` via `toBool`, ignoring every other key. -/
def loggerConfigLoop (c : LoggerConfigurationData) :
    List (String × DynValue) → Except SectionError LoggerConfigurationData
  | [] => .ok c
  | (key, value) :: rest =>
    if key = "level" then
      match toString key value with
      | .error e => .error (.loggerUnmarshalType e)
      | .ok s => loggerConfigLoop { c with level := s } rest
    else if key = "colorized" then
      match toBool key value with
      | .error e => .error (.loggerUnmarshalType e)
      | .ok b => loggerConfigLoop { c with colorized := b } rest
    else
      loggerConfigLoop c rest

/-- `newLoggerConfiguration` (`logger.go`): starts from the zero
`loggerConfigurationData` and decodes the section's pairs. -/
def newLoggerConfiguration (values : List (String × DynValue)) :
    Except SectionError LoggerConfigurationData :=
  loggerConfigLoop ⟨"", false⟩ values

/-- A decoded top-level configuration value: either a
`map[string]interface\x7b\x7d` (the only shape the section cases accept) or
a value of any other type. -/
inductive TopValue where
  | vMap (entries : List (String × DynValue))
  | nonMap
deriving DecidableEq, Repr

/-- The `Logger` and `Console` pointer fields of `Configuration` as far as
`unmarshalLoad` mutates them (`none` models a nil pointer). -/
structure ConfigSections where
  logger : Option LoggerConfigurationData
  console : Option ConsoleConfigurationData
deriving DecidableEq, Repr

/-- The error returned by `unmarshalLoad`: either a section decoder error
(assigned to `err` by `c.Logger, err = newLoggerConfiguration(m)` and
returned at the end of the loop) or the immediately returned
`InvalidInitConfigError\x7bCode: ErrUnmarshalLoggerData\x7d` built when a
recognized key's value is not a `map[string]interface\x7b\x7d` (the source
uses `ErrUnmarshalLoggerData` for both the logger and the console case). -/
inductive UnmarshalLoadError where
  | sectionErr (e : SectionError)
  | notMap (key : String)
deriving DecidableEq, Repr

/-- The loop of `unmarshalLoad` (`configuration.go`): ranges over the
decoded top-level pairs; `"logger"` and `"console"` values that are maps are
decoded into fresh section values assigned to `c.Logger` / `c.Console`
(`err` is overwritten by each such assignment, and on a decoder error the
section pointer is set to nil); a recognized key whose value is not a map
returns immediately; every other key is ignored.  Returns the mutated
sections together with the `err` value returned at the end of the range. -/
def unmarshalLoadLoop (c : ConfigSections) (err : Option UnmarshalLoadError) :
    List (String × TopValue) → ConfigSections × Option UnmarshalLoadError
  | [] => (c, err)
  | (key, value) :: rest =>
    if key = "logger" then
      match value with
      | .vMap m =>
        match newLoggerConfiguration m with
        | .ok lc => unmarshalLoadLoop { c with logger := some lc } none rest
        | .error e =>
          unmarshalLoadLoop { c with logger := none } (some (.sectionErr e)) rest
      | .nonMap => (c, some (.notMap key))
    else if key = "console" then
      match value with
      | .vMap m =>
        match newConsoleConfiguration m with
        | .ok cc => unmarshalLoadLoop { c with console := some cc } none rest
        | .error e =>
          unmarshalLoadLoop { c with console := none } (some (.sectionErr e)) rest
      | .nonMap => (c, some (.notMap key))
    else
      unmarshalLoadLoop c err rest

/-- `unmarshalLoad` on a freshly decoded `Configuration` receiver. -/
def unmarshalLoad (c : ConfigSections) (values : List (String × TopValue)) :
    ConfigSections × Option UnmarshalLoadError :=
  unmarshalLoadLoop c none values

/-! ## The struct walker (`walkStructure`, `configuration.go`)

The walker traverses a settings graph of scalar leaves, by-value structs
and pointers-to-structs.  `Node` is a field's value; `Fields` is the field
list of a struct, each field carrying the `IsExported` flag of its
`reflect.StructField` and whether its value is convertible to
`*Configuration` (`fv.CanConvert(configurationTypePtr)`), the one case in
which an unexported field is made settable via `reflect.NewAt` instead of
being skipped.  A nil pointer field (`ptrNil zero`) carries the field list
of the zero value of its pointee type, which is what
`reflect.New(ft.Type.Elem())` allocates. -/

mutual
/-- A value in the settings graph. -/
inductive Node where
  | leaf (v : Int)
  | strukt (fields : Fields)
  | ptrNil (zero : Fields)
  | ptrSome (zero : Fields) (target : Fields)
deriving DecidableEq, Repr

/-- The declared fields of a struct, in declaration order. -/
inductive Fields where
  | nil
  | cons (exported corePtrConv : Bool) (n : Node) (rest : Fields)
deriving DecidableEq, Repr
end

/-- The error type a `processFunc` may return. -/
structure WalkError where
  msg : String
deriving DecidableEq, Repr

/-- `processFunc`: receives the leaf's value, the walk level and the key
prefix, and may return an error (the source signature also passes the
`reflect.StructField`; neither actual processFunc consults any argument). -/
def ProcessFunc (α : Type) : Type := α → Nat → String → Option WalkError

/-- The `for _, f := range fs` loop in the walker's default branch: runs
each processFunc in order, stopping at the first error. -/
def runProcessFuncs (fs : List (ProcessFunc α)) (v : α) (level : Nat)
    (key : String) : Option WalkError :=
  match fs with
  | [] => none
  | f :: rest =>
    match f v level key with
    | some e => some e
    | none => runProcessFuncs rest v level key

/-- `processDefault` (`configuration.go`): returns nil, touching nothing. -/
def processDefault : ProcessFunc α := fun _ _ _ => none

/-- `processEnvVar` (`configuration.go`): returns nil, touching nothing —
in particular it never reads an environment variable. -/
def processEnvVar : ProcessFunc α := fun _ _ _ => none

mutual
/-- The body of `walkStructure`'s `switch fv.Kind()` for a single field
value: a scalar leaf runs the processFuncs (value unchanged); a by-value
struct is copied to an addressable temporary, walked, and copied back; a
nil pointer is first set to a freshly allocated zero value of the pointee
type and then walked through; a non-nil pointer is walked through.
Recursive walks receive `level+1` and `key ++ "."`, as in the source. -/
def walkNode (fs : List (ProcessFunc Int)) (level : Nat) (key : String) :
    Node → Except WalkError Node
  | .leaf v =>
    match runProcessFuncs fs v level key with
    | some e => .error e
    | none => .ok (.leaf v)
  | .strukt f =>
    match walkFields fs (level + 1) (key ++ ".") f with
    | .error e => .error e
    | .ok f2 => .ok (.strukt f2)
  | .ptrNil zero =>
    match walkFields fs (level + 1) (key ++ ".") zero with
    | .error e => .error e
    | .ok t2 => .ok (.ptrSome zero t2)
  | .ptrSome zero t =>
    match walkFields fs (level + 1) (key ++ ".") t with
    | .error e => .error e
    | .ok t2 => .ok (.ptrSome zero t2)

/-- `walkStructure`'s field loop (`for i := 0; err == nil && i <
rv.NumField(); i++`): an unexported field not convertible to
`*Configuration` is skipped unchanged; every other field is processed by
`walkNode`; the first error stops the loop and is returned. -/
def walkFields (fs : List (ProcessFunc Int)) (level : Nat) (key : String) :
    Fields → Except WalkError Fields
  | .nil => .ok .nil
  | .cons exported corePtrConv n rest =>
    if exported || corePtrConv then
      match walkNode fs level key n with
      | .error e => .error e
      | .ok n2 =>
        match walkFields fs level key rest with
        | .error e => .error e
        | .ok rest2 => .ok (.cons exported corePtrConv n2 rest2)
    else
      match walkFields fs level key rest with
      | .error e => .error e
      | .ok rest2 => .ok (.cons exported corePtrConv n rest2)
end

/-- `walkStructure` as invoked by `InitConfig`: the argument is a pointer
to the caller's struct, so the walk dereferences it and loops over its
fields. -/
def walkStructure (fs : List (ProcessFunc Int)) (level : Nat) (key : String)
    (s : Fields) : Except WalkError Fields :=
  walkFields fs level key s

mutual
/-- A walked (settable) node is fully populated: no nil pointer remains in
any part of the graph the walker visits. -/
def nodePopulated : Node → Bool
  | .leaf _ => true
  | .strukt f => fieldsPopulated f
  | .ptrNil _ => false
  | .ptrSome _ t => fieldsPopulated t

/-- Every field the walker visits (exported, or unexported but convertible
to `*Configuration`) is populated; skipped fields are unconstrained. -/
def fieldsPopulated : Fields → Bool
  | .nil => true
  | .cons exported corePtrConv n rest =>
    (if exported || corePtrConv then nodePopulated n else true)
      && fieldsPopulated rest
end

/-! ## `InitConfig` (`configuration.go`): argument validation, anchor
resolution, and the order of initialization effects -/

/-- A model of the `reflect.Type` values `InitConfig` and
`InvalidInitConfigError.Error` distinguish: the core `clif.Configuration`
type, a pointer type, or any other named type (carrying its `String()`
rendering, e.g. `"clif.configB"`). -/
inductive GoType where
  | configurationT
  | ptrTo (t : GoType)
  | named (s : String)
deriving DecidableEq, Repr

/-- `reflect.Type.String()`. -/
def goTypeString : GoType → String
  | .configurationT => "clif.Configuration"
  | .ptrTo t => "*" ++ goTypeString t
  | .named s => s

/-- `t.Kind() == reflect.Pointer`. -/
def GoType.isPtrKind : GoType → Bool
  | .ptrTo _ => true
  | _ => false

/-- Error codes from `configuration.go`. -/
def ErrMissingCoreConfig : String := "CC01"

/-- Error code `CC02`. -/
def ErrAnonymousCoreConfig : String := "CC02"

/-- Error code `CC03`. -/
def ErrUnmarshalCoreConfig : String := "CC03"

/-- Error code `CC03LC01`. -/
def ErrUnmarshalLoggerData : String := "CC03LC01"

/-- Error code `CC03CC01`. -/
def ErrUnmarshalConsoleData : String := "CC03CC01"

/-- Error code `CC04`. -/
def ErrFileReadCoreConfig : String := "CC04"

/-- Error code `CC05`. -/
def ErrNonExportedCoreConfig : String := "CC05"

/-- `InvalidInitConfigError`: a code (zero value `""` when unset), an
optional wrapped error message (the `err` field), and `argType`, the
`Type` field (`none` models a nil `Type`). -/
structure InvalidInitConfigError where
  Code : String
  errMsg : Option String
  argType : Option GoType
deriving DecidableEq, Repr

/-- `InvalidInitConfigError.Error()` (`configuration.go`). -/
def invalidInitConfigErrorString (e : InvalidInitConfigError) : String :=
  if e.Code = ErrMissingCoreConfig then
    "configuration error - InitConfig(core configuration not present)"
  else if e.Code = ErrAnonymousCoreConfig then
    "configuration error - InitConfig(core configuration is anonymous)"
  else if e.Code = ErrNonExportedCoreConfig then
    "configuration error - InitConfig(core configuration is unexported)"
  else if e.Code = ErrUnmarshalCoreConfig ∨ e.Code = ErrUnmarshalLoggerData
      ∨ e.Code = ErrUnmarshalConsoleData ∨ e.Code = ErrFileReadCoreConfig then
    "configuration error - " ++ (e.errMsg.getD "<nil>")
  else
    match e.argType with
    | none => "configuration error - InitConfig(nil)"
    | some t =>
      if t = .configurationT then
        "configuration error - InitConfig(non-pointer of embedded "
          ++ goTypeString t ++ ")"
      else if ¬ t.isPtrKind then
        "configuration error - InitConfig(non-pointer " ++ goTypeString t ++ ")"
      else
        "configuration error - InitConfig(nil " ++ goTypeString t ++ ")"

/-- Classification of a top-level field of the caller's settings structure,
as `InitConfig`'s scan distinguishes them: convertible to `*Configuration`
(with the declaring `StructField`'s `Anonymous` and exported flags),
convertible to the bare `Configuration` type, or anything else. -/
inductive TopFieldKind where
  | ptrCore (anonymous exported : Bool)
  | bareCore
  | other
deriving DecidableEq, Repr

/-- The argument handed to `InitConfig`: a nil interface, a non-pointer
value, a nil pointer, or a non-nil pointer to a struct with the given
top-level fields. -/
inductive InitArg where
  | nilArg
  | nonPtr (t : GoType)
  | nilPtr (t : GoType)
  | structPtr (fields : List TopFieldKind)
deriving DecidableEq, Repr

/-- Observable effects of `InitConfig`, in program order: reading a field
of the caller's structure, assigning the freshly built `Configuration` into
the anchor field, filling metadata defaults, running the option functions,
starting the background watcher goroutine (`go c.watch(ctx)` inside
`newConfiguration`), reading+unmarshalling the configuration file
(`unmarshalConfigFile`), and the final structure walk (`walkStructure`). -/
inductive InitEvent where
  | readArgField (i : Nat)
  | assignCoreConfig (i : Nat)
  | setMetadataDefaults
  | applyOptions
  | startWatcher
  | unmarshalFile
  | walkStruct
deriving DecidableEq, Repr

/-- The field scan of `InitConfig` (`for i := 0; i < rv.Elem().NumField();
i++`), returning the error (or `none` on success once the anchor is found
and handled) together with the ordered list of effects performed.  On the
first field convertible to `*Configuration`: anonymous declaration is
rejected; then, `c` being nil, an unexported declaration is rejected before
any assignment; otherwise the new `Configuration` is assigned into the
field, metadata defaults are set, `newConfiguration` applies the options
and (when watching is enabled) starts the watcher, the configuration file
is unmarshalled when loading is enabled, and the loop breaks.  A field
convertible to the bare `Configuration` type aborts with a `Type`-carrying
error.  The error and effect list model the successful outcome of the
metadata/option/file steps, which the ordering claims are about. -/
def initConfigScan (load watch : Bool) (i : Nat) :
    List TopFieldKind → Option InvalidInitConfigError × List InitEvent
  | [] => (some ⟨ErrMissingCoreConfig, none, none⟩, [])
  | f :: rest =>
    match f with
    | .ptrCore anonymous exported =>
      if anonymous then
        (some ⟨ErrAnonymousCoreConfig, none, none⟩, [.readArgField i])
      else if ¬ exported then
        (some ⟨ErrNonExportedCoreConfig, none, none⟩, [.readArgField i])
      else
        (none,
          [.readArgField i, .assignCoreConfig i, .setMetadataDefaults,
            .applyOptions]
          ++ (if watch then [.startWatcher] else [])
          ++ (if load then [.unmarshalFile] else []))
    | .bareCore =>
      (some ⟨"", none, some .configurationT⟩, [.readArgField i])
    | .other =>
      let (err, evs) := initConfigScan load watch (i + 1) rest
      (err, .readArgField i :: evs)

/-- `InitConfig` (`configuration.go`): validates the argument, scans for
the anchor, and — when loading is enabled and the scan succeeded — runs
`walkStructure` over the whole structure.  Returns the error result
together with the ordered effect trace. -/
def initConfig (load watch : Bool) (arg : InitArg) :
    Option InvalidInitConfigError × List InitEvent :=
  match arg with
  | .nilArg => (some ⟨"", none, none⟩, [])
  | .nonPtr t => (some ⟨"", none, some t⟩, [])
  | .nilPtr t => (some ⟨"", none, some t⟩, [])
  | .structPtr fields =>
    match initConfigScan load watch 0 fields with
    | (some e, evs) => (some e, evs)
    | (none, evs) => (none, evs ++ (if load then [.walkStruct] else []))

/-! ## Notification Registry and Change Watcher -/

/-- The Notification Registry's map `notifyFuncs map[string][]
ConfigurationNotifyFunc`, modelled as an association list with distinct
keys; callbacks are identified by a tag. -/
abbrev NotifyRegistry : Type := List (String × List Nat)

/-- `AddNotifyOnChange` (`configuration.go`): under the mutex, fetches the
setting's callback list (an empty one when absent) and appends the new
callback to it. -/
def addNotifyOnChange (reg : NotifyRegistry) (setting : String) (cb : Nat) :
    NotifyRegistry :=
  if (reg.lookup setting).isSome then
    reg.map (fun p => if p.1 = setting then (p.1, p.2 ++ [cb]) else p)
  else
    reg ++ [(setting, [cb])]

/-- One invocation performed by a watcher tick: (callback, setting name,
value passed). -/
abbrev Invocation : Type := Nat × String × String

/-- `checkForEnvChange` (`configuration.go`): on a timer tick, for every
setting in `notifyFuncs`, reads `os.Getenv(setting)` (the empty string when
unset, as in Go) and calls every registered callback with
`(setting, value)` — with no comparison against any previous value. -/
def checkForEnvChange (env : String → String) (reg : NotifyRegistry) :
    List Invocation :=
  reg.flatMap (fun p => p.2.map (fun cb => (cb, p.1, env p.1)))

/-- Lock-sensitive events for the concurrency claim: acquiring/releasing
`configurationData.lock`, reading or writing the `notifyFuncs` map entry of
a setting, starting a `range` iteration over the map, and invoking a
callback. -/
inductive SyncEvent where
  | lockAcquire
  | lockRelease
  | mapRead (setting : String)
  | mapWrite (setting : String)
  | mapRangeStart
  | invokeCallback (cb : Nat) (setting value : String)
deriving DecidableEq, Repr

/-- The event trace of `AddNotifyOnChange`: `c.lock.Lock()`, map read of
the setting's list, map write of the appended list, deferred
`c.lock.Unlock()`. -/
def addNotifyOnChangeTrace (setting : String) (_cb : Nat) : List SyncEvent :=
  [.lockAcquire, .mapRead setting, .mapWrite setting, .lockRelease]

/-- The event trace of `checkForEnvChange`: a `range` over
`c.configurationData.notifyFuncs` followed by the callback invocations —
the function body contains no use of `c.lock`. -/
def checkForEnvChangeTrace (env : String → String) (reg : NotifyRegistry) :
    List SyncEvent :=
  .mapRangeStart ::
    (checkForEnvChange env reg).map (fun t => .invokeCallback t.1 t.2.1 t.2.2)

/-- The processFunc list `InitConfig` passes to `walkStructure`
(`walkStructure(configuration, 0, "", processDefault, processEnvVar)`). -/
def initProcessFuncs : List (ProcessFunc Int) := [processDefault, processEnvVar]

/-- Modelled from the spec (§4.3), for comparison against the source only:
the value a leaf should hold under precedence defaults < file <
environment, where a later provider's absence of a value never clears an
earlier provider's value. -/
def specMergedValue (dflt : String) (fileVal envVal : Option String) :
    String :=
  match envVal with
  | some v => v
  | none =>
    match fileVal with
    | some v => v
    | none => dflt

/-- The logger `level` after `InitConfig`'s load-enabled path, as the
source computes it: `unmarshalConfigFile` decodes the file into the
structure (for the core sections, via `unmarshalLoad`), and `walkStructure`
then traverses the graph with `processDefault` and `processEnvVar` — both
of which return nil and mutate nothing, so the level keeps the value the
file decode gave it (moreover `loggerConfigurationData` sits behind the
unexported embedded pointer of `LoggerConfiguration`, which the walker
skips).  If the file has no logger section, `c.Logger` stays nil and the
walk allocates a zero value, whose level is `""` (the `getD`).  The
environment is not a parameter of this function because no code on the
path reads an environment variable. -/
def initLoadedLoggerLevel (file : List (String × TopValue)) : String :=
  (((unmarshalLoad ⟨none, none⟩ file).1).logger.getD ⟨"", false⟩).level

/-! ## Helper lemmas -/

/-- Every invocation a tick produces carries the name of some registry
entry. -/
theorem checkForEnvChange_key_mem (env : String → String) :
    ∀ (reg : NotifyRegistry) (t : Invocation), t ∈ checkForEnvChange env reg →
      t.2.1 ∈ reg.map Prod.fst := by
  intro reg
  induction reg with
  | nil => intro t ht; simp [checkForEnvChange] at ht
  | cons p rest ih =>
    intro t ht
    simp only [checkForEnvChange, List.flatMap_cons, List.mem_append] at ht
    rcases ht with ht | ht
    · rcases List.mem_map.mp ht with ⟨cb, _, rfl⟩
      simp
    · simp only [List.map_cons, List.mem_cons]
      exact Or.inr (ih t ht)

/-- Appending a callback to a setting's list in the registry map is visible
through `lookup`. -/
theorem lookup_map_append (s : String) (cb : Nat) :
    ∀ (reg : NotifyRegistry) (cbs : List Nat), reg.lookup s = some cbs →
      (reg.map (fun p => if p.1 = s then (p.1, p.2 ++ [cb]) else p)).lookup s
        = some (cbs ++ [cb]) := by
  intro reg
  induction reg with
  | nil => intro cbs h; simp [List.lookup] at h
  | cons p rest ih =>
    obtain ⟨a, l⟩ := p
    intro cbs h
    by_cases hp : a = s
    · subst hp
      simp only [List.lookup, beq_self_eq_true, Option.some.injEq] at h
      subst h
      rw [List.map_cons, if_pos rfl]
      simp [List.lookup]
    · have hbeq : (s == a) = false :=
        beq_eq_false_iff_ne.mpr (fun he => hp he.symm)
      simp only [List.lookup, hbeq] at h
      rw [List.map_cons, if_neg hp]
      simp only [List.lookup, hbeq]
      exact ih cbs h

/-- Unfolding a tick over a registry entry. -/
theorem checkForEnvChange_cons (env : String → String) (a : String)
    (l : List Nat) (rest : NotifyRegistry) :
    checkForEnvChange env ((a, l) :: rest)
      = (l.map fun cb => (cb, a, env a)) ++ checkForEnvChange env rest := rfl

/-- For a registry with distinct keys (a Go map invariant), the invocations
a tick emits for setting `s` are exactly `s`'s registered callbacks in list
order, each applied to `(s, env s)`. -/
theorem checkForEnvChange_filter (env : String → String) :
    ∀ (reg : NotifyRegistry) (s : String) (cbs : List Nat),
      (reg.map Prod.fst).Nodup → reg.lookup s = some cbs →
      (checkForEnvChange env reg).filter (fun t => t.2.1 == s)
        = cbs.map (fun cb => (cb, s, env s)) := by
  intro reg
  induction reg with
  | nil => intro s cbs _ h; simp [List.lookup] at h
  | cons p rest ih =>
    obtain ⟨a, l⟩ := p
    intro s cbs hnodup h
    simp only [List.map_cons, List.nodup_cons] at hnodup
    obtain ⟨ha, hrest⟩ := hnodup
    by_cases hp : a = s
    · subst hp
      simp only [List.lookup, beq_self_eq_true, Option.some.injEq] at h
      subst h
      rw [checkForEnvChange_cons, List.filter_append]
      have h1 : (l.map (fun cb => (cb, a, env a))).filter
          (fun t => t.2.1 == a) = l.map (fun cb => (cb, a, env a)) := by
        apply List.filter_eq_self.mpr
        intro t ht
        rcases List.mem_map.mp ht with ⟨cb, _, rfl⟩
        simp
      have h2 : (checkForEnvChange env rest).filter (fun t => t.2.1 == a)
          = [] := by
        apply List.filter_eq_nil_iff.mpr
        intro t ht
        have hmem := checkForEnvChange_key_mem env rest t ht
        simp only [beq_iff_eq]
        intro he
        exact ha (he ▸ hmem)
      rw [h1, h2, List.append_nil]
    · have hbeq : (s == a) = false :=
        beq_eq_false_iff_ne.mpr (fun he => hp he.symm)
      simp only [List.lookup, hbeq] at h
      rw [checkForEnvChange_cons, List.filter_append]
      have h1 : (l.map (fun cb => (cb, a, env a))).filter
          (fun t => t.2.1 == s) = [] := by
        apply List.filter_eq_nil_iff.mpr
        intro t ht
        rcases List.mem_map.mp ht with ⟨cb, _, rfl⟩
        simp [hp]
      rw [h1, List.nil_append]
      exact ih s cbs hrest h

/-! ## Claim theorems -/

/-- Claim C3 (corrected): the section decoders dispatch on the value's
runtime type — `"level"` takes exactly a `string`, `"colorized"` exactly a
`bool`, and a mismatch fails with the section's unmarshal-type sentinel
wrapping the offending key; a match stores the value in the typed field.
The integer keys `"width"` and `"height"` of the console section, however,
accept a `float64` in addition to an `int` (`toInt` converts it), so for
them only values that are neither `int` nor `float64` fail. -/
theorem sectionDecoders_decode_by_runtime_type (v : DynValue) :
    (∀ s, v = .vString s → newLoggerConfiguration [("level", v)] = .ok ⟨s, false⟩)
  ∧ (v.isGoString = false →
      newLoggerConfiguration [("level", v)]
        = .error (.loggerUnmarshalType ⟨"level"⟩))
  ∧ (∀ b, v = .vBool b →
      newLoggerConfiguration [("colorized", v)] = .ok ⟨"", b⟩)
  ∧ (v.isGoBool = false →
      newLoggerConfiguration [("colorized", v)]
        = .error (.loggerUnmarshalType ⟨"colorized"⟩))
  ∧ (∀ i, v = .vInt i → newConsoleConfiguration [("width", v)] = .ok ⟨i, 0⟩)
  ∧ (∀ t, v = .vFloat t → newConsoleConfiguration [("width", v)] = .ok ⟨t, 0⟩)
  ∧ (v.isGoInt = false → (∀ t, v ≠ .vFloat t) →
      newConsoleConfiguration [("width", v)]
        = .error (.consoleUnmarshalType ⟨"width"⟩))
  ∧ (∀ i, v = .vInt i → newConsoleConfiguration [("height", v)] = .ok ⟨0, i⟩)
  ∧ (∀ t, v = .vFloat t → newConsoleConfiguration [("height", v)] = .ok ⟨0, t⟩)
  ∧ (v.isGoInt = false → (∀ t, v ≠ .vFloat t) →
      newConsoleConfiguration [("height", v)]
        = .error (.consoleUnmarshalType ⟨"height"⟩)) := by
  cases v <;>
    simp [newLoggerConfiguration, loggerConfigLoop, newConsoleConfiguration,
      consoleConfigLoop, toInt, toBool, toString, DynValue.isGoString,
      DynValue.isGoBool, DynValue.isGoInt]

/-- Witness for `sectionDecoders_decode_by_runtime_type` at concrete
inputs. -/
theorem sectionDecoders_decode_by_runtime_type_witness :
    newLoggerConfiguration [("level", DynValue.vString "debug")]
      = .ok ⟨"debug", false⟩
  ∧ newLoggerConfiguration [("colorized", DynValue.vInt 1)]
      = .error (.loggerUnmarshalType ⟨"colorized"⟩) :=
  ⟨(sectionDecoders_decode_by_runtime_type (.vString "debug")).1 "debug" rfl,
   (sectionDecoders_decode_by_runtime_type (.vInt 1)).2.2.2.1 (by decide)⟩

/-- Claim C3, counterexample to the claim as stated: a `float64` value for
the console `"width"` key does not match the expected primitive type `int`,
yet decoding succeeds (with the truncated value) instead of failing with an
unmarshal-type error. -/
theorem consoleWidth_accepts_float64 :
    newConsoleConfiguration [("width", DynValue.vFloat 50)] = .ok ⟨50, 0⟩
  ∧ (DynValue.vFloat 50).isGoInt = false := by
  constructor
  · rfl
  · rfl

/-- Claim C7 (confirmed): in `unmarshalLoad`, a top-level key other than
`"logger"` and `"console"` is skipped by the switch: processing the pair is
the identity on the sections and on the pending error, so it neither fails
nor mutates the Logger or Console section. -/
theorem unmarshalLoad_ignores_unknown_keys (c : ConfigSections)
    (err : Option UnmarshalLoadError) (key : String) (value : TopValue)
    (rest : List (String × TopValue))
    (h1 : key ≠ "logger") (h2 : key ≠ "console") :
    unmarshalLoadLoop c err ((key, value) :: rest)
      = unmarshalLoadLoop c err rest := by
  simp only [unmarshalLoadLoop, if_neg h1, if_neg h2]

/-- Witness for `unmarshalLoad_ignores_unknown_keys`: an unknown key with a
non-map value leaves an empty configuration untouched and error-free. -/
theorem unmarshalLoad_ignores_unknown_keys_witness :
    unmarshalLoadLoop ⟨none, none⟩ none [("telemetry", TopValue.nonMap)]
      = (⟨none, none⟩, none) :=
  (unmarshalLoad_ignores_unknown_keys ⟨none, none⟩ none "telemetry"
    TopValue.nonMap [] (by decide) (by decide)).trans rfl

/-- Claim C4 (confirmed): on a watcher tick, `checkForEnvChange` reads the
current environment value of every registered setting name and invokes
every callback registered for that name with `(name, currentValue)` — the
function performs no comparison with a previous value, so the invocation
happens unconditionally for an arbitrary `env` — and the callbacks of one
name run in registration order: registering appends to the name's list
(second conjunct), and the tick's invocations for that name are exactly
that list in order (first conjunct). -/
theorem tick_invokes_registered_callbacks_in_order (env : String → String)
    (reg : NotifyRegistry) (s : String) (cbs : List Nat)
    (hnodup : (reg.map Prod.fst).Nodup) (hs : reg.lookup s = some cbs) :
    (checkForEnvChange env reg).filter (fun t => t.2.1 == s)
      = cbs.map (fun cb => (cb, s, env s))
  ∧ ∀ cb, (addNotifyOnChange reg s cb).lookup s = some (cbs ++ [cb]) := by
  constructor
  · exact checkForEnvChange_filter env reg s cbs hnodup hs
  · intro cb
    unfold addNotifyOnChange
    rw [if_pos (by rw [hs]; rfl)]
    exact lookup_map_append s cb reg cbs hs

/-- Witness for `tick_invokes_registered_callbacks_in_order`: with settings
`"A"` (callbacks 1 then 2) and `"B"` (callback 3) registered, a tick
invokes 1 then 2 for `"A"` with the current value of `"A"`. -/
theorem tick_invokes_registered_callbacks_in_order_witness :
    (checkForEnvChange (fun v => v ++ "!") [("A", [1, 2]), ("B", [3])]).filter
        (fun t => t.2.1 == "A")
      = [(1, "A", "A!"), (2, "A", "A!")]
  ∧ ∀ cb, (addNotifyOnChange [("A", [1, 2]), ("B", [3])] "A" cb).lookup "A"
      = some ([1, 2] ++ [cb]) :=
  tick_invokes_registered_callbacks_in_order (fun v => v ++ "!")
    [("A", [1, 2]), ("B", [3])] "A" [1, 2] (by decide) (by decide)

/-- Claim C9 (code bug): `AddNotifyOnChange` does guard its map access with
`c.lock`, but `checkForEnvChange` ranges over the same `notifyFuncs` map
without ever acquiring the lock: its trace contains the map iteration and
no lock acquisition, for every environment and registry contents. -/
theorem checkForEnvChange_iterates_map_unlocked (env : String → String)
    (reg : NotifyRegistry) (setting : String) (cb : Nat) :
    SyncEvent.lockAcquire ∉ checkForEnvChangeTrace env reg
  ∧ SyncEvent.mapRangeStart ∈ checkForEnvChangeTrace env reg
  ∧ addNotifyOnChangeTrace setting cb
      = [.lockAcquire, .mapRead setting, .mapWrite setting, .lockRelease] := by
  refine ⟨?_, ?_, rfl⟩
  · intro hmem
    simp only [checkForEnvChangeTrace, List.mem_cons] at hmem
    rcases hmem with h | h
    · exact SyncEvent.noConfusion h
    · rcases List.mem_map.mp h with ⟨t, _, ht⟩
      exact SyncEvent.noConfusion ht
  · simp [checkForEnvChangeTrace]

/-- Claim C10 (confirmed): a nil argument, a non-pointer argument, and a
nil-pointer argument each make `InitConfig` return an
`InvalidInitConfigError` carrying the argument's `reflect.Type` (nil for a
nil interface), with an empty effect trace — no field of the argument is
read or mutated — and `Error()` renders the distinguishing message naming
the offending type. -/
theorem initConfig_rejects_invalid_arguments (load watch : Bool)
    (t u : GoType) :
    initConfig load watch .nilArg = (some ⟨"", none, none⟩, [])
  ∧ initConfig load watch (.nonPtr t) = (some ⟨"", none, some t⟩, [])
  ∧ initConfig load watch (.nilPtr u) = (some ⟨"", none, some u⟩, [])
  ∧ invalidInitConfigErrorString ⟨"", none, none⟩
      = "configuration error - InitConfig(nil)"
  ∧ (t ≠ .configurationT → t.isPtrKind = false →
      invalidInitConfigErrorString ⟨"", none, some t⟩
        = "configuration error - InitConfig(non-pointer "
            ++ goTypeString t ++ ")")
  ∧ (∀ w, u = .ptrTo w →
      invalidInitConfigErrorString ⟨"", none, some u⟩
        = "configuration error - InitConfig(nil " ++ goTypeString u ++ ")") := by
  refine ⟨rfl, rfl, rfl, by decide, ?_, ?_⟩
  · intro h1 h2
    simp [invalidInitConfigErrorString, ErrMissingCoreConfig,
      ErrAnonymousCoreConfig, ErrNonExportedCoreConfig, ErrUnmarshalCoreConfig,
      ErrUnmarshalLoggerData, ErrUnmarshalConsoleData, ErrFileReadCoreConfig,
      h1, h2]
  · intro w hw
    subst hw
    simp [invalidInitConfigErrorString, ErrMissingCoreConfig,
      ErrAnonymousCoreConfig, ErrNonExportedCoreConfig, ErrUnmarshalCoreConfig,
      ErrUnmarshalLoggerData, ErrUnmarshalConsoleData, ErrFileReadCoreConfig,
      GoType.isPtrKind]

/-- Witness for `initConfig_rejects_invalid_arguments` at the types of the
package's own tests (`configB` passed by value and a nil `*configDPtr`). -/
theorem initConfig_rejects_invalid_arguments_witness :
    invalidInitConfigErrorString ⟨"", none, some (.named "clif.configB")⟩
      = "configuration error - InitConfig(non-pointer clif.configB)"
  ∧ invalidInitConfigErrorString
        ⟨"", none, some (.ptrTo (.named "clif.configDPtr"))⟩
      = "configuration error - InitConfig(nil *clif.configDPtr)" := by
  constructor
  · exact ((initConfig_rejects_invalid_arguments true true
      (.named "clif.configB") (.ptrTo (.named "clif.configDPtr"))).2.2.2.2.1
        (by decide) (by decide)).trans (by decide)
  · exact ((initConfig_rejects_invalid_arguments true true
      (.named "clif.configB") (.ptrTo (.named "clif.configDPtr"))).2.2.2.2.2
        (.named "clif.configDPtr") rfl).trans (by decide)

/-- Scanning past a prefix of fields that are neither convertible to
`*Configuration` nor to `Configuration` only reads those fields and
continues with the next index. -/
theorem initConfigScan_skips_other (load watch : Bool) :
    ∀ (pre : List TopFieldKind) (i : Nat) (l : List TopFieldKind),
      (∀ f ∈ pre, f = .other) →
      initConfigScan load watch i (pre ++ l)
        = ((initConfigScan load watch (i + pre.length) l).1,
           (List.range' i pre.length).map InitEvent.readArgField
             ++ (initConfigScan load watch (i + pre.length) l).2) := by
  intro pre
  induction pre with
  | nil => intro i l _; simp
  | cons f pre ih =>
    intro i l hall
    have hf : f = .other := hall f (List.mem_cons_self f pre)
    subst hf
    have hpre : ∀ g ∈ pre, g = .other :=
      fun g hg => hall g (List.mem_cons_of_mem _ hg)
    simp only [List.cons_append, initConfigScan, List.append_eq]
    rw [ih (i + 1) l hpre]
    have harith : i + 1 + pre.length = i + (pre.length + 1) := by omega
    rw [harith]
    simp only [List.length_cons]
    rw [List.range'_succ]
    simp

/-- Claim C2, counterexample to the claim as stated: with loading and
watching both enabled and a well-formed anchor, the watcher-start effect
occurs strictly before the file unmarshal and before the structure walk —
the Settings Graph is not yet populated when the watcher goroutine is
launched — although initialization as a whole succeeds. -/
theorem watcher_started_before_population :
    ((initConfig true true (.structPtr [.ptrCore false true])).2).indexOf
        InitEvent.startWatcher
      < ((initConfig true true (.structPtr [.ptrCore false true])).2).indexOf
        InitEvent.unmarshalFile
  ∧ InitEvent.startWatcher ∈ (initConfig true true (.structPtr [.ptrCore false true])).2
  ∧ InitEvent.unmarshalFile ∈ (initConfig true true (.structPtr [.ptrCore false true])).2
  ∧ InitEvent.walkStruct ∈ (initConfig true true (.structPtr [.ptrCore false true])).2
  ∧ ((initConfig true true (.structPtr [.ptrCore false true])).2).indexOf
        InitEvent.startWatcher
      < ((initConfig true true (.structPtr [.ptrCore false true])).2).indexOf
        InitEvent.walkStruct
  ∧ (initConfig true true (.structPtr [.ptrCore false true])).1 = none := by
  decide

/-- Claim C2 (corrected): for every initialization with watching enabled
over a structure whose anchor follows any number of unrelated fields, the
watcher is started inside `newConfiguration` — after the anchor is
assigned, metadata defaults are set and the options are applied, but
*before* the configuration file is unmarshalled and before the structure
walk populates the Settings Graph. -/
theorem watcher_starts_after_options_before_population (load : Bool)
    (pre rest : List TopFieldKind) (h : ∀ f ∈ pre, f = .other) :
    (initConfig load true (.structPtr (pre ++ .ptrCore false true :: rest))).2
      = (List.range' 0 pre.length).map InitEvent.readArgField
        ++ [.readArgField pre.length, .assignCoreConfig pre.length,
            .setMetadataDefaults, .applyOptions, .startWatcher]
        ++ (if load then [InitEvent.unmarshalFile, InitEvent.walkStruct]
            else []) := by
  have hscan := initConfigScan_skips_other load true pre 0
    (.ptrCore false true :: rest) h
  have hanchor : initConfigScan load true (0 + pre.length)
      (.ptrCore false true :: rest)
      = (none, [.readArgField pre.length, .assignCoreConfig pre.length,
          .setMetadataDefaults, .applyOptions]
        ++ [.startWatcher]
        ++ (if load then [InitEvent.unmarshalFile] else [])) := by
    cases load <;> simp [initConfigScan]
  rw [hanchor] at hscan
  simp only [initConfig, hscan]
  cases load <;> simp

/-- Witness for `watcher_starts_after_options_before_population` on a
structure with one unrelated field before the anchor. -/
theorem watcher_starts_after_options_before_population_witness :
    (initConfig true true (.structPtr [.other, .ptrCore false true])).2
      = [.readArgField 0, .readArgField 1, .assignCoreConfig 1,
         .setMetadataDefaults, .applyOptions, .startWatcher,
         .unmarshalFile, .walkStruct] := by
  have h := watcher_starts_after_options_before_population true [.other] []
    (by simp)
  simpa using h

/-- Claim C5, counterexample to the claim as stated: in a structure whose
first field convertible to `*Configuration` is non-anonymous but unexported
while an *earlier* field is convertible to the bare `Configuration` type,
`InitConfig` fails with the non-pointer-embedding error (`Type =
clif.Configuration`, code empty), not with `NonExportedCoreConfig`. -/
theorem bareCore_preempts_nonExported_error :
    (initConfig true true (.structPtr [.bareCore, .ptrCore false false])).1
      = some ⟨"", none, some .configurationT⟩
  ∧ ("" : String) ≠ ErrNonExportedCoreConfig := by
  decide

/-- Claim C5 (corrected): provided no earlier field is convertible to the
bare `Configuration` type, a structure whose first field convertible to
`*Configuration` is non-anonymous but unexported makes `InitConfig` fail
with `NonExportedCoreConfig`; the trace contains only field reads — in
particular no `Configuration` is ever assigned into the field. -/
theorem initConfig_rejects_unexported_anchor (load watch : Bool)
    (pre rest : List TopFieldKind) (h : ∀ f ∈ pre, f = .other) :
    initConfig load watch (.structPtr (pre ++ .ptrCore false false :: rest))
      = (some ⟨ErrNonExportedCoreConfig, none, none⟩,
         (List.range' 0 pre.length).map InitEvent.readArgField
           ++ [.readArgField pre.length])
  ∧ ∀ i, InitEvent.assignCoreConfig i
      ∉ (initConfig load watch
          (.structPtr (pre ++ .ptrCore false false :: rest))).2 := by
  have hscan := initConfigScan_skips_other load watch pre 0
    (.ptrCore false false :: rest) h
  have hanchor : initConfigScan load watch (0 + pre.length)
      (.ptrCore false false :: rest)
      = (some ⟨ErrNonExportedCoreConfig, none, none⟩,
         [.readArgField pre.length]) := by
    simp [initConfigScan]
  rw [hanchor] at hscan
  have hmain : initConfig load watch
      (.structPtr (pre ++ .ptrCore false false :: rest))
      = (some ⟨ErrNonExportedCoreConfig, none, none⟩,
         (List.range' 0 pre.length).map InitEvent.readArgField
           ++ [.readArgField pre.length]) := by
    simp only [initConfig, hscan]
  refine ⟨hmain, ?_⟩
  intro i hmem
  rw [hmain] at hmem
  simp only [List.mem_append, List.mem_map, List.mem_singleton] at hmem
  rcases hmem with ⟨k, _, hk⟩ | hk <;> exact InitEvent.noConfusion hk

/-- Witness for `initConfig_rejects_unexported_anchor` on the minimal
structure whose only field is the unexported anchor. -/
theorem initConfig_rejects_unexported_anchor_witness :
    initConfig true true (.structPtr [.ptrCore false false])
      = (some ⟨ErrNonExportedCoreConfig, none, none⟩, [.readArgField 0]) := by
  have h := (initConfig_rejects_unexported_anchor true true [] [] (by simp)).1
  simpa using h

mutual
/-- After a successful walk, the processed node contains no nil pointer in
any visited position. -/
theorem walkNode_populates (fs : List (ProcessFunc Int)) :
    ∀ (level : Nat) (key : String) (n n' : Node),
      walkNode fs level key n = .ok n' → nodePopulated n' = true
  | level, key, .leaf v, n', h => by
    simp only [walkNode] at h
    split at h
    · exact Except.noConfusion h
    · injection h with h'
      rw [← h']
      rfl
  | level, key, .strukt f, n', h => by
    simp only [walkNode] at h
    split at h
    · exact Except.noConfusion h
    · rename_i f2 heq
      injection h with h'
      rw [← h']
      exact walkFields_populates fs (level + 1) (key ++ ".") f f2 heq
  | level, key, .ptrNil zero, n', h => by
    simp only [walkNode] at h
    split at h
    · exact Except.noConfusion h
    · rename_i t2 heq
      injection h with h'
      rw [← h']
      exact walkFields_populates fs (level + 1) (key ++ ".") zero t2 heq
  | level, key, .ptrSome zero t, n', h => by
    simp only [walkNode] at h
    split at h
    · exact Except.noConfusion h
    · rename_i t2 heq
      injection h with h'
      rw [← h']
      exact walkFields_populates fs (level + 1) (key ++ ".") t t2 heq

/-- After a successful walk of a field list, every visited field is
populated. -/
theorem walkFields_populates (fs : List (ProcessFunc Int)) :
    ∀ (level : Nat) (key : String) (f f' : Fields),
      walkFields fs level key f = .ok f' → fieldsPopulated f' = true
  | level, key, .nil, f', h => by
    simp only [walkFields] at h
    injection h with h'
    rw [← h']
    rfl
  | level, key, .cons exp core n rest, f', h => by
    simp only [walkFields] at h
    by_cases hc : (exp || core) = true
    · rw [if_pos hc] at h
      split at h
      · exact Except.noConfusion h
      · rename_i n2 heqn
        split at h
        · exact Except.noConfusion h
        · rename_i rest2 heqr
          injection h with h'
          rw [← h']
          simp only [fieldsPopulated, if_pos hc, Bool.and_eq_true]
          exact ⟨walkNode_populates fs level key n n2 heqn,
            walkFields_populates fs level key rest rest2 heqr⟩
    · rw [if_neg hc] at h
      split at h
      · exact Except.noConfusion h
      · rename_i rest2 heqr
        injection h with h'
        rw [← h']
        simp only [fieldsPopulated, if_neg hc, Bool.true_and]
        exact walkFields_populates fs level key rest rest2 heqr
end

/-- Claim C6 (confirmed): whenever `walkStructure` returns without error,
every settable pointer field at every visited depth of the result is
non-nil — a nil pointer is replaced by an allocated zero value of the
pointee type before the walk recurses into it, and unexported non-anchor
fields (the only skipped ones) are outside the guarantee. -/
theorem walk_success_populates_settable_pointers
    (fs : List (ProcessFunc Int)) (level : Nat) (key : String)
    (s out : Fields) (h : walkStructure fs level key s = .ok out) :
    fieldsPopulated out = true :=
  walkFields_populates fs level key s out h

mutual
/-- Re-walking an already-walked node with the no-op processFuncs
`InitConfig` uses reproduces it unchanged. -/
theorem walkNode_idem :
    ∀ (level : Nat) (key : String) (n n' : Node),
      walkNode initProcessFuncs level key n = .ok n' →
      walkNode initProcessFuncs level key n' = .ok n'
  | level, key, .leaf v, n', h => by
    simp only [walkNode] at h
    rw [show runProcessFuncs initProcessFuncs v level key = none from rfl] at h
    injection h with h'
    rw [← h']
    simp only [walkNode]
    rw [show runProcessFuncs initProcessFuncs v level key = none from rfl]
  | level, key, .strukt f, n', h => by
    simp only [walkNode] at h
    split at h
    · exact Except.noConfusion h
    · rename_i f2 heq
      injection h with h'
      rw [← h']
      simp only [walkNode]
      rw [walkFields_idem (level + 1) (key ++ ".") f f2 heq]
  | level, key, .ptrNil zero, n', h => by
    simp only [walkNode] at h
    split at h
    · exact Except.noConfusion h
    · rename_i t2 heq
      injection h with h'
      rw [← h']
      simp only [walkNode]
      rw [walkFields_idem (level + 1) (key ++ ".") zero t2 heq]
  | level, key, .ptrSome zero t, n', h => by
    simp only [walkNode] at h
    split at h
    · exact Except.noConfusion h
    · rename_i t2 heq
      injection h with h'
      rw [← h']
      simp only [walkNode]
      rw [walkFields_idem (level + 1) (key ++ ".") t t2 heq]

/-- Re-walking an already-walked field list with the no-op processFuncs
reproduces it unchanged. -/
theorem walkFields_idem :
    ∀ (level : Nat) (key : String) (f f' : Fields),
      walkFields initProcessFuncs level key f = .ok f' →
      walkFields initProcessFuncs level key f' = .ok f'
  | level, key, .nil, f', h => by
    simp only [walkFields] at h
    injection h with h'
    rw [← h']
    simp only [walkFields]
  | level, key, .cons exp core n rest, f', h => by
    simp only [walkFields] at h
    by_cases hc : (exp || core) = true
    · rw [if_pos hc] at h
      split at h
      · exact Except.noConfusion h
      · rename_i n2 heqn
        split at h
        · exact Except.noConfusion h
        · rename_i rest2 heqr
          injection h with h'
          rw [← h']
          simp only [walkFields]
          rw [if_pos hc, walkNode_idem level key n n2 heqn,
            walkFields_idem level key rest rest2 heqr]
    · rw [if_neg hc] at h
      split at h
      · exact Except.noConfusion h
      · rename_i rest2 heqr
        injection h with h'
        rw [← h']
        simp only [walkFields]
        rw [if_neg hc, walkFields_idem level key rest rest2 heqr]
end

/-- Claim C8 (confirmed): running the struct walker a second time, with the
same source providers `InitConfig` passes (`processDefault` and
`processEnvVar`), over the structure produced by a successful first run
reproduces exactly the same values in every field. -/
theorem walkStructure_idempotent_with_init_sources (level : Nat)
    (key : String) (s out : Fields)
    (h : walkStructure initProcessFuncs level key s = .ok out) :
    walkStructure initProcessFuncs level key out = .ok out :=
  walkFields_idem level key s out h

/-- Witness for `walk_success_populates_settable_pointers`: a structure
with one exported nil pointer field (pointee: a struct with one exported
leaf) walks successfully and ends fully populated. -/
theorem walk_success_populates_settable_pointers_witness :
    fieldsPopulated
      (.cons true false
        (.ptrSome (.cons true false (.leaf 0) .nil)
          (.cons true false (.leaf 0) .nil)) .nil) = true :=
  walk_success_populates_settable_pointers initProcessFuncs 0 ""
    (.cons true false (.ptrNil (.cons true false (.leaf 0) .nil)) .nil)
    (.cons true false
      (.ptrSome (.cons true false (.leaf 0) .nil)
        (.cons true false (.leaf 0) .nil)) .nil)
    rfl

/-- Witness for `walkStructure_idempotent_with_init_sources`: re-walking
the populated structure of the previous witness reproduces it. -/
theorem walkStructure_idempotent_with_init_sources_witness :
    walkStructure initProcessFuncs 0 ""
      (.cons true false
        (.ptrSome (.cons true false (.leaf 0) .nil)
          (.cons true false (.leaf 0) .nil)) .nil)
    = .ok (.cons true false
        (.ptrSome (.cons true false (.leaf 0) .nil)
          (.cons true false (.leaf 0) .nil)) .nil) :=
  walkStructure_idempotent_with_init_sources 0 ""
    (.cons true false (.ptrNil (.cons true false (.leaf 0) .nil)) .nil)
    (.cons true false
      (.ptrSome (.cons true false (.leaf 0) .nil)
        (.cons true false (.leaf 0) .nil)) .nil)
    rfl

/-- Claim C1 (code bug): with loading enabled, an environment variable
never overrides a file-supplied value, because `processEnvVar` — the
walker's environment provider — is a stub returning nil.  At the failing
input (file `logger.level = "info"`, environment
`${APPNAME}_LOGGER_LEVEL = "debug"`), the code leaves the level at
`"info"` while the claimed highest-precedence merge yields `"debug"`.
The second conjunct records that the leaf step of the walk
(`runProcessFuncs` over `processDefault, processEnvVar`) does nothing for
every leaf value, level and key. -/
theorem environment_never_overrides_file_value :
    initLoadedLoggerLevel [("logger", .vMap [("level", .vString "info")])]
      = "info"
  ∧ (∀ (v : Int) (level : Nat) (key : String),
      runProcessFuncs initProcessFuncs v level key = none)
  ∧ specMergedValue "" (some "info") (some "debug") = "debug"
  ∧ ("info" : String) ≠ "debug" := by
  refine ⟨rfl, fun v level key => rfl, rfl, by decide⟩

end Clif
